import Mathlib

/-! Verification of the application lifecycle orchestrator (`faust/app/service.py`,
class `AppService`) and the HTTP facade stub (`faust/web/base.py`, class `Web`).

The Python code is shallowly embedded: the application object is a record of
the fields the orchestrator touches, components are an inductive enumeration,
stateful methods become state-passing functions, and the fallible
`on_first_start` returns an `Except`.  Side effects of hook calls are recorded
in an explicit event trace so that ordering properties can be stated.
-/

/-- The distinct components an application exposes to the orchestrator.
User-registered sensors and agents are numbered; the built-in monitor is a
distinguished sensor-shaped component. -/
inductive Component where
  | producer
  | consumer
  | replyConsumer
  | topics
  | fetcher
  | leaderAssignor
  | tables
  | monitor
  | sensor (n : Nat)
  | agent (n : Nat)
deriving DecidableEq, Repr

/-- A task callable registered with `@app.task`, identified by `id`, with the
number of parameters its signature declares (what
`inspect.signature(task).parameters` reveals). -/
structure TaskSpec where
  id : Nat
  arity : Nat
deriving DecidableEq, Repr

/-- An entry of `app._extra_services`: either a service class (constructor)
or an already-instantiated service object, as distinguished by
`inspect.isclass` in `_prepare_subservice`. -/
inductive ExtraService where
  | cls (id : Nat)
  | inst (id : Nat)
deriving DecidableEq, Repr

/-- A materialized extra-service instance.  `loop` and `beacon` record the
scheduling loop and supervision beacon it was constructed with (`none` when
the user passed a ready-made instance, which `_prepare_subservice` returns
unmodified). -/
structure ServiceInst where
  id : Nat
  loop : Option Nat
  beacon : Option Nat
deriving DecidableEq, Repr

/-- The result of invoking a task callable in `on_started_init_extra_tasks`:
either called with no arguments, or called with the application object. -/
inductive TaskCall where
  | noArgs (id : Nat)
  | withApp (id : Nat) (appId : Nat)
deriving DecidableEq, Repr

/-- Observable effects of the orchestrator, recorded in order. -/
inductive Ev where
  | createDirectories
  | appOnFirstStart
  | finalize
  | appOnStart
  | childStarted (c : Component)
  | addFuture (t : TaskCall)
  | startService (s : ServiceInst)
  | startupFinished
  | appOnStarted
deriving DecidableEq, Repr

/-- The slice of the application object (`faust.app.base.App`) consumed by
`AppService`: mode flag, sensor collection, agents, registered extra
tasks/services, the optional `on_startup_finished` callback, and the state
mutated by the orchestrator (directory creation, the monitor's beacon parent
and loop binding). -/
structure App where
  id : Nat
  client_only : Bool
  sensors : List Component
  agents : List Component
  tasks : List TaskSpec
  extra_services : List ExtraService
  on_startup_finished : Bool
  directories_created : Bool
  monitorBeaconParent : Nat
  monitorLoop : Nat
deriving DecidableEq, Repr

/-- The state of an `AppService` instance: its application, its own beacon
and loop, the `_extra_service_instances` one-shot field, the futures added
with `add_future`, the children that have reached `started`, and the event
trace. -/
structure AppServiceState where
  app : App
  beacon : Nat
  loop : Nat
  extra_service_instances : Option (List ServiceInst)
  futures : List TaskCall
  startedChildren : List Component
  events : List Ev
deriving DecidableEq, Repr

/-- Modelled from the spec: the application's sensor collection is a set
(`SensorDelegate.add` is not among the sources); adding a sensor already
present leaves the collection unchanged, otherwise it is appended. -/
def sensorsAdd (ss : List Component) (c : Component) : List Component :=
  if c ∈ ss then ss else ss ++ [c]

/-- `AppService._components_client`: the components started in
Client-Only mode. -/
def _components_client (_s : AppServiceState) : List Component :=
  [Component.producer, Component.consumer, Component.replyConsumer,
   Component.topics, Component.fetcher]

/-- `AppService._components_server`: the components started in Server mode.
Side effects, as in the source: the monitor's beacon is reattached to the
orchestrator's beacon, its loop is rebound to the orchestrator's loop, and
the monitor is added to the application's sensor collection before the
chained component list is built. -/
def _components_server (s : AppServiceState) : AppServiceState × List Component :=
  let app := s.app
  let app := { app with
    monitorBeaconParent := s.beacon
    monitorLoop := s.loop
    sensors := sensorsAdd app.sensors Component.monitor }
  let s := { s with app := app }
  (s, app.sensors
      ++ [Component.producer]
      ++ [Component.consumer]
      ++ [Component.leaderAssignor]
      ++ [Component.replyConsumer]
      ++ app.agents
      ++ [Component.topics]
      ++ [Component.tables]
      ++ [Component.fetcher])

/-- `AppService.on_init_dependencies`: client components in client-only mode,
server components otherwise. -/
def on_init_dependencies (s : AppServiceState) : AppServiceState × List Component :=
  if s.app.client_only then (s, _components_client s) else _components_server s

/-- The error raised by `on_first_start` when no agents are registered. -/
inductive AppError where
  | ImproperlyConfigured (msg : String)
deriving DecidableEq, Repr

/-- `App._create_directories`: creates the on-disk directories (modelled as
setting a flag on the application). -/
def _create_directories (a : App) : App :=
  { a with directories_created := true }

/-- `AppService.on_first_start`: create directories, then raise
`ImproperlyConfigured` if the application has no agents, else run the
application's own `on_first_start` hook. -/
def on_first_start (s : AppServiceState) : AppServiceState × Except AppError Unit :=
  let s := { s with
    app := _create_directories s.app
    events := s.events ++ [Ev.createDirectories] }
  if s.app.agents.isEmpty then
    (s, Except.error (AppError.ImproperlyConfigured
      "Attempting to start app that has no agents"))
  else
    ({ s with events := s.events ++ [Ev.appOnFirstStart] }, Except.ok ())

/-- `AppService.on_start`: finalize the application, then run its own
`on_start` hook. -/
def on_start (s : AppServiceState) : AppServiceState :=
  { s with events := s.events ++ [Ev.finalize, Ev.appOnStart] }

/-- How `on_started_init_extra_tasks` invokes one task callable: with the
application object when its signature declares parameters, with no arguments
otherwise. -/
def invokeTask (a : App) (t : TaskSpec) : TaskCall :=
  if t.arity ≠ 0 then TaskCall.withApp t.id a.id else TaskCall.noArgs t.id

/-- `AppService.on_started_init_extra_tasks`: invoke every registered task
callable and register each result with `add_future`. -/
def on_started_init_extra_tasks (s : AppServiceState) : AppServiceState :=
  let targets := s.app.tasks.map (invokeTask s.app)
  { s with
    futures := s.futures ++ targets
    events := s.events ++ targets.map Ev.addFuture }

/-- `AppService._prepare_subservice`: a class is instantiated with the
orchestrator's loop and beacon; an instance is returned unmodified. -/
def _prepare_subservice (s : AppServiceState) (e : ExtraService) : ServiceInst :=
  match e with
  | ExtraService.cls i => ⟨i, some s.loop, some s.beacon⟩
  | ExtraService.inst i => ⟨i, none, none⟩

/-- `AppService.on_started_init_extra_services`: when
`_extra_service_instances` is still `None`, materialize every registered
extra service and start each as a runtime dependency; otherwise do
nothing. -/
def on_started_init_extra_services (s : AppServiceState) : AppServiceState :=
  match s.extra_service_instances with
  | none =>
    let insts := s.app.extra_services.map (_prepare_subservice s)
    { s with
      extra_service_instances := some insts
      events := s.events ++ insts.map Ev.startService }
  | some _ => s

/-- `AppService.on_started`: wait for table recovery.  `stoppedSet` is the
result of `wait_for_stopped(recovery_completed)`: `true` when the wait ended
because the service was stopped concurrently, in which case everything is
skipped; otherwise activate extra tasks, then extra services, then invoke
the `on_startup_finished` callback when the application provides one, then
run the application's own `on_started` hook. -/
def on_started (stoppedSet : Bool) (s : AppServiceState) : AppServiceState :=
  if stoppedSet then s
  else
    let s := on_started_init_extra_tasks s
    let s := on_started_init_extra_services s
    let s := if s.app.on_startup_finished
      then { s with events := s.events ++ [Ev.startupFinished] }
      else s
    { s with events := s.events ++ [Ev.appOnStarted] }

/-- Starting one child of the dependency graph: it reaches `started` and is
recorded. -/
def startChild (s : AppServiceState) (c : Component) : AppServiceState :=
  { s with
    startedChildren := s.startedChildren ++ [c]
    events := s.events ++ [Ev.childStarted c] }

/-- Modelled from the spec: the generic LifecycleNode start sequence (the
`mode.Service` base class is not among the sources).  The dependency graph
is resolved (with its side effects) when starting begins; the one-time
`on_first_start` hook runs first and a failure there aborts the start before
any child starts; then `on_start` runs, the children start sequentially in
declared order, and finally `on_started` runs with the outcome of the
recovery-barrier wait. -/
def start (stoppedDuringWait : Bool) (s0 : AppServiceState) :
    AppServiceState × Except AppError Unit :=
  let p := on_init_dependencies s0
  match on_first_start p.1 with
  | (s2, Except.error e) => (s2, Except.error e)
  | (s2, Except.ok _) =>
    let s3 := on_start s2
    let s4 := p.2.foldl startChild s3
    let s5 := on_started stoppedDuringWait s4
    (s5, Except.ok ())

/-- The HTTP facade (`faust.web.base.Web`): bound address and port. -/
structure Web where
  bind : String
  port : Nat
deriving DecidableEq, Repr

/-- `Web.url`: as in the source, built from the literal host `localhost` and
the port (`'http://localhost:{}/'.format(self.port)`). -/
def Web.url (w : Web) : String :=
  "http://localhost:" ++ toString w.port ++ "/"

/-! Concrete applications and orchestrator states used by the witnesses. -/

/-- A client-only application with one user sensor and one agent. -/
def demoClientApp : App :=
  ⟨7, true, [Component.sensor 0], [Component.agent 0], [], [], false, false, 0, 0⟩

/-- Orchestrator state for `demoClientApp`. -/
def demoClient : AppServiceState :=
  ⟨demoClientApp, 11, 12, none, [], [], []⟩

/-- A server-mode application with a user sensor, the monitor already
supplied by the user, two agents, two tasks (one zero-parameter, one
one-parameter), two extra services (one class, one instance) and an
`on_startup_finished` callback. -/
def demoServerApp : App :=
  ⟨7, false, [Component.sensor 0, Component.monitor],
   [Component.agent 0, Component.agent 1],
   [⟨1, 0⟩, ⟨2, 1⟩],
   [ExtraService.cls 3, ExtraService.inst 4],
   true, false, 0, 0⟩

/-- Orchestrator state for `demoServerApp`. -/
def demoServer : AppServiceState :=
  ⟨demoServerApp, 11, 12, none, [], [], []⟩

/-- A server-mode application with zero registered agents. -/
def demoNoAgentsApp : App :=
  ⟨7, false, [Component.sensor 0], [], [], [], true, false, 0, 0⟩

/-- Orchestrator state for `demoNoAgentsApp`. -/
def demoNoAgents : AppServiceState :=
  ⟨demoNoAgentsApp, 11, 12, none, [], [], []⟩

/-! Helper lemmas. -/

/-- `on_started_init_extra_services` never modifies the application object. -/
theorem extra_services_preserves_app (s : AppServiceState) :
    (on_started_init_extra_services s).app = s.app := by
  cases h : s.extra_service_instances <;>
    simp [on_started_init_extra_services, h]

/-- `on_started` never modifies the application object. -/
theorem on_started_preserves_app (b : Bool) (s : AppServiceState) :
    (on_started b s).app = s.app := by
  cases b with
  | true => rfl
  | false =>
    cases h : s.extra_service_instances <;>
      cases hb : s.app.on_startup_finished <;>
        simp [on_started, on_started_init_extra_tasks,
          on_started_init_extra_services, h, hb]

/-- Starting one child never modifies the application object. -/
theorem startChild_preserves_app (s : AppServiceState) (c : Component) :
    (startChild s c).app = s.app := rfl

/-- Starting the children of the dependency graph never modifies the
application object. -/
theorem foldl_startChild_preserves_app (l : List Component) (s : AppServiceState) :
    (l.foldl startChild s).app = s.app := by
  induction l generalizing s with
  | nil => rfl
  | cons c l ih => simpa [startChild] using ih { s with
      startedChildren := s.startedChildren ++ [c]
      events := s.events ++ [Ev.childStarted c] }

/-- Adding the monitor to a duplicate-free sensor collection leaves it
containing the monitor exactly once. -/
theorem count_sensorsAdd_monitor (ss : List Component) (h : ss.Nodup) :
    (sensorsAdd ss Component.monitor).count Component.monitor = 1 := by
  unfold sensorsAdd
  by_cases hm : Component.monitor ∈ ss
  · simpa [hm] using List.count_eq_one_of_mem h hm
  · simp [hm, List.count_append]
    exact List.count_eq_zero.mpr hm

/-! Claim theorems. -/

/-- Claim C2: in client-only mode the resolved dependency graph leaves the
state untouched and is exactly producer, consumer, reply consumer, topic
router, fetcher, in that order; it contains no sensor, no agent, not the
monitor, not the leader assignor and not the table manager. -/
theorem client_mode_components (s : AppServiceState)
    (h : s.app.client_only = true) :
    on_init_dependencies s
      = (s, [Component.producer, Component.consumer, Component.replyConsumer,
             Component.topics, Component.fetcher])
    ∧ ∀ c ∈ (on_init_dependencies s).2,
        (∀ n, c ≠ Component.sensor n) ∧ (∀ n, c ≠ Component.agent n)
        ∧ c ≠ Component.monitor ∧ c ≠ Component.leaderAssignor
        ∧ c ≠ Component.tables := by
  constructor
  · simp [on_init_dependencies, _components_client, h]
  · intro c hc
    simp [on_init_dependencies, _components_client, h] at hc
    rcases hc with h1 | h1 | h1 | h1 | h1 <;> subst h1 <;> simp

/-- Witness for C2 on the concrete client-only application. -/
theorem client_mode_components_witness :
    demoClient.app.client_only = true ∧
    (on_init_dependencies demoClient
      = (demoClient,
         [Component.producer, Component.consumer, Component.replyConsumer,
          Component.topics, Component.fetcher])
    ∧ ∀ c ∈ (on_init_dependencies demoClient).2,
        (∀ n, c ≠ Component.sensor n) ∧ (∀ n, c ≠ Component.agent n)
        ∧ c ≠ Component.monitor ∧ c ≠ Component.leaderAssignor
        ∧ c ≠ Component.tables) :=
  ⟨rfl, client_mode_components demoClient rfl⟩

/-- Claim C3: in server mode the resolved dependency graph is the updated
sensor collection (the user sensors with the monitor added) first, then
producer, consumer, leader assignor, reply consumer, then all agents, then
the topic router, the table manager, and the fetcher last. -/
theorem server_mode_components (s : AppServiceState)
    (h : s.app.client_only = false) :
    (on_init_dependencies s).1.app.sensors
      = sensorsAdd s.app.sensors Component.monitor
    ∧ (on_init_dependencies s).2
      = sensorsAdd s.app.sensors Component.monitor
        ++ [Component.producer, Component.consumer, Component.leaderAssignor,
            Component.replyConsumer]
        ++ s.app.agents
        ++ [Component.topics, Component.tables, Component.fetcher] := by
  simp [on_init_dependencies, _components_server, h]

/-- Witness for C3 on the concrete server-mode application. -/
theorem server_mode_components_witness :
    demoServer.app.client_only = false ∧
    ((on_init_dependencies demoServer).1.app.sensors
      = sensorsAdd demoServer.app.sensors Component.monitor
    ∧ (on_init_dependencies demoServer).2
      = sensorsAdd demoServer.app.sensors Component.monitor
        ++ [Component.producer, Component.consumer, Component.leaderAssignor,
            Component.replyConsumer]
        ++ demoServer.app.agents
        ++ [Component.topics, Component.tables, Component.fetcher]) :=
  ⟨rfl, server_mode_components demoServer rfl⟩

/-- Claim C5: when the recovery-barrier wait ends because the orchestrator
was stopped concurrently, `on_started` adds no future, materializes no
extra service, and produces no event at all (in particular neither the
`on_startup_finished` callback nor the application's `on_started` hook
runs). -/
theorem stopped_wait_skips_everything (s : AppServiceState) :
    (on_started true s).futures = s.futures
    ∧ (on_started true s).extra_service_instances = s.extra_service_instances
    ∧ (on_started true s).events = s.events
    ∧ on_started true s = s := by
  simp [on_started]

/-- Claim C6: the first call of `on_started_init_extra_services` (with the
field still unset) materializes every registered extra service and starts
each one; and the activation path is idempotent, a second call returns the
state unchanged. -/
theorem extra_services_materialize_once (s : AppServiceState)
    (h : s.extra_service_instances = none) :
    (on_started_init_extra_services s).extra_service_instances
      = some (s.app.extra_services.map (_prepare_subservice s))
    ∧ (on_started_init_extra_services s).events
      = s.events
        ++ (s.app.extra_services.map (_prepare_subservice s)).map Ev.startService
    ∧ ∀ t : AppServiceState,
        on_started_init_extra_services (on_started_init_extra_services t)
          = on_started_init_extra_services t := by
  refine ⟨by simp [on_started_init_extra_services, h],
          by simp [on_started_init_extra_services, h], ?_⟩
  intro t
  cases ht : t.extra_service_instances with
  | none => simp [on_started_init_extra_services, ht]
  | some l => simp [on_started_init_extra_services, ht]

/-- Witness for C6 on the concrete server-mode application. -/
theorem extra_services_materialize_once_witness :
    demoServer.extra_service_instances = none ∧
    ((on_started_init_extra_services demoServer).extra_service_instances
      = some (demoServer.app.extra_services.map (_prepare_subservice demoServer))
    ∧ (on_started_init_extra_services demoServer).events
      = demoServer.events
        ++ (demoServer.app.extra_services.map
            (_prepare_subservice demoServer)).map Ev.startService
    ∧ ∀ t : AppServiceState,
        on_started_init_extra_services (on_started_init_extra_services t)
          = on_started_init_extra_services t) :=
  ⟨rfl, extra_services_materialize_once demoServer rfl⟩

/-- Claim C7: activating the extra tasks registers, exactly once per task
and in registration order, the result of invoking it; a zero-parameter
callable is invoked with no arguments and a one-parameter callable receives
the application object. -/
theorem extra_tasks_invocation (s : AppServiceState) :
    (on_started_init_extra_tasks s).futures
      = s.futures ++ s.app.tasks.map (invokeTask s.app)
    ∧ (∀ t : TaskSpec, t.arity = 0 → invokeTask s.app t = TaskCall.noArgs t.id)
    ∧ (∀ t : TaskSpec, t.arity = 1
        → invokeTask s.app t = TaskCall.withApp t.id s.app.id) := by
  refine ⟨by simp [on_started_init_extra_tasks], ?_, ?_⟩ <;>
    intro t ht <;> simp [invokeTask, ht]

/-- Witness for C7: the two demo tasks (one zero-parameter, one
one-parameter) are both registered exactly once with the right arguments. -/
theorem extra_tasks_invocation_witness :
    (on_started_init_extra_tasks demoServer).futures
      = [TaskCall.noArgs 1, TaskCall.withApp 2 7]
    ∧ ((on_started_init_extra_tasks demoServer).futures
      = demoServer.futures ++ demoServer.app.tasks.map (invokeTask demoServer.app)
    ∧ (∀ t : TaskSpec, t.arity = 0
        → invokeTask demoServer.app t = TaskCall.noArgs t.id)
    ∧ (∀ t : TaskSpec, t.arity = 1
        → invokeTask demoServer.app t = TaskCall.withApp t.id demoServer.app.id)) :=
  ⟨by decide, extra_tasks_invocation demoServer⟩

/-- Claim C9 counterexample: with bound address `0.0.0.0` and port 6066 the
url is not derived from the bound address — it is not
`http://0.0.0.0:6066/`. -/
theorem web_url_ignores_bind_cex :
    Web.url { bind := "0.0.0.0", port := 6066 } ≠ "http://0.0.0.0:6066/"
    ∧ Web.url { bind := "0.0.0.0", port := 6066 } = "http://localhost:6066/" := by
  constructor
  · decide
  · rfl

/-- Claim C9 (amended): the url is derived from the port only; its host part
is the fixed literal `localhost`, so two facades with different bound
addresses but equal ports have equal urls. -/
theorem web_url_from_port (b1 b2 : String) (p : Nat) :
    Web.url { bind := b1, port := p } = "http://localhost:" ++ toString p ++ "/"
    ∧ Web.url { bind := b1, port := p } = Web.url { bind := b2, port := p } :=
  ⟨rfl, rfl⟩

/-- Claim C10: with zero agents, `on_first_start` still creates the
application's directories (the state mutation happens before the agent
check) and then fails with `ImproperlyConfigured`; the application's own
`on_first_start` hook does not run. -/
theorem first_start_creates_directories (s : AppServiceState)
    (h : s.app.agents = []) :
    (on_first_start s).1.app.directories_created = true
    ∧ (on_first_start s).1.events = s.events ++ [Ev.createDirectories]
    ∧ (on_first_start s).2 = Except.error (AppError.ImproperlyConfigured
        "Attempting to start app that has no agents") := by
  simp [on_first_start, _create_directories, h]

/-- Witness for C10 on the concrete agent-less application. -/
theorem first_start_creates_directories_witness :
    demoNoAgents.app.agents = [] ∧
    ((on_first_start demoNoAgents).1.app.directories_created = true
    ∧ (on_first_start demoNoAgents).1.events
      = demoNoAgents.events ++ [Ev.createDirectories]
    ∧ (on_first_start demoNoAgents).2
      = Except.error (AppError.ImproperlyConfigured
        "Attempting to start app that has no agents")) :=
  ⟨rfl, first_start_creates_directories demoNoAgents rfl⟩

/-- Claim C8: when the recovery barrier resolves normally, `on_started`
produces exactly, in order: one future registration per task, one service
start per materialized extra service, the `on_startup_finished` callback
when the application provides one, and finally the application's own
`on_started` hook. -/
theorem normal_wait_runs_sequence (s : AppServiceState)
    (h : s.extra_service_instances = none) :
    (on_started false s).events
      = s.events
        ++ (s.app.tasks.map (invokeTask s.app)).map Ev.addFuture
        ++ (s.app.extra_services.map (_prepare_subservice s)).map Ev.startService
        ++ (if s.app.on_startup_finished then [Ev.startupFinished] else [])
        ++ [Ev.appOnStarted] := by
  cases hb : s.app.on_startup_finished <;>
    simp [on_started, on_started_init_extra_tasks, on_started_init_extra_services,
      _prepare_subservice, h, hb, List.append_assoc]

/-- Witness for C8 on the concrete server-mode application. -/
theorem normal_wait_runs_sequence_witness :
    demoServer.extra_service_instances = none ∧
    (on_started false demoServer).events
      = demoServer.events
        ++ (demoServer.app.tasks.map (invokeTask demoServer.app)).map Ev.addFuture
        ++ (demoServer.app.extra_services.map
            (_prepare_subservice demoServer)).map Ev.startService
        ++ (if demoServer.app.on_startup_finished
            then [Ev.startupFinished] else [])
        ++ [Ev.appOnStarted] :=
  ⟨rfl, normal_wait_runs_sequence demoServer rfl⟩

/-- Claim C1: starting a server-mode application with zero agents fails
with `ImproperlyConfigured`, and no child of the orchestrator ever reaches
the started state. -/
theorem no_agents_start_fails (b : Bool) (s : AppServiceState)
    (h1 : s.app.client_only = false)
    (h2 : s.app.agents = [])
    (h3 : s.startedChildren = []) :
    (start b s).2 = Except.error (AppError.ImproperlyConfigured
        "Attempting to start app that has no agents")
    ∧ (start b s).1.startedChildren = [] := by
  simp [start, on_init_dependencies, _components_server, on_first_start,
    _create_directories, h1, h2, h3]

/-- Witness for C1 on the concrete agent-less server-mode application. -/
theorem no_agents_start_fails_witness :
    demoNoAgents.app.client_only = false
    ∧ demoNoAgents.app.agents = []
    ∧ demoNoAgents.startedChildren = []
    ∧ ((start false demoNoAgents).2
        = Except.error (AppError.ImproperlyConfigured
          "Attempting to start app that has no agents")
      ∧ (start false demoNoAgents).1.startedChildren = []) :=
  ⟨rfl, rfl, rfl, no_agents_start_fails false demoNoAgents rfl rfl rfl⟩

/-- Claim C4: starting a server-mode application re-parents the monitor's
beacon to the orchestrator's beacon, rebinds the monitor's loop to the
orchestrator's loop, and leaves the monitor in the sensor collection exactly
once — also when the user had already supplied the monitor themselves. -/
theorem server_start_monitor_once (b : Bool) (s : AppServiceState)
    (h1 : s.app.client_only = false)
    (h2 : s.app.sensors.Nodup) :
    (start b s).1.app.monitorBeaconParent = s.beacon
    ∧ (start b s).1.app.monitorLoop = s.loop
    ∧ (start b s).1.app.sensors.count Component.monitor = 1 := by
  have key : (start b s).1.app.monitorBeaconParent = s.beacon
      ∧ (start b s).1.app.monitorLoop = s.loop
      ∧ (start b s).1.app.sensors = sensorsAdd s.app.sensors Component.monitor := by
    cases he : s.app.agents.isEmpty <;>
      simp [start, on_init_dependencies, _components_server, on_first_start,
        _create_directories, h1, he, on_start, startChild_preserves_app,
        foldl_startChild_preserves_app, on_started_preserves_app]
  refine ⟨key.1, key.2.1, ?_⟩
  rw [key.2.2]
  exact count_sensorsAdd_monitor s.app.sensors h2

/-- Witness for C4 on the concrete server-mode application, whose user
already put the monitor into the sensor collection. -/
theorem server_start_monitor_once_witness :
    demoServer.app.client_only = false
    ∧ demoServer.app.sensors.Nodup
    ∧ ((start false demoServer).1.app.monitorBeaconParent = demoServer.beacon
      ∧ (start false demoServer).1.app.monitorLoop = demoServer.loop
      ∧ (start false demoServer).1.app.sensors.count Component.monitor = 1) :=
  ⟨rfl, by decide, server_start_monitor_once false demoServer rfl (by decide)⟩
